import Mathlib

/-!
Verification of the print-nanny NATS command-and-control engine:
subject routing, the tagged request/reply protocol (`src/nats/src/message.rs`
and `src/nats/src/message_v2.rs`), the dispatcher (`src/nats/src/subscriber.rs`)
and the domain command handlers (`src/nats/src/commands.rs`), shallowly
embedded in Lean.
-/

namespace PrintNanny

/-! ## Subject router

`Request::replace_subject_pattern(subject, hostname, "{pi_id}")` is called at
`src/nats/src/subscriber.rs:158`; the trait implementation itself lives in a
module that is not under src/, so it is modelled from the spec (§4.1).
Splitting on '.' follows the semantics of Rust `str::split('.')`: every
occurrence of the separator splits, empty segments are kept. -/

/-- Split a character list on `'.'`, keeping empty segments. -/
def splitSegs : List Char → List (List Char)
  | [] => [[]]
  | c :: rest =>
    if c = '.' then [] :: splitSegs rest
    else
      match splitSegs rest with
      | [] => [[c]]
      | s :: ss => (c :: s) :: ss

/-- Rejoin segments with `'.'`. -/
def joinSegs : List (List Char) → List Char
  | [] => []
  | [s] => s
  | s :: ss => s ++ '.' :: joinSegs ss

/-- Lower-case a character list (models Rust `str::to_lowercase` on ASCII
hostnames). -/
def lowerChars (s : List Char) : List Char := s.map Char.toLower

/-- Modelled from the spec: the `NatsRequestHandler::replace_subject_pattern`
implementation is not under src/. Per spec §4.1 it splits the subject on '.',
replaces every segment equal to the device id (matched case-insensitively
against a lower-cased device identifier) with the placeholder, and rejoins;
if no segment matches, the subject comes back unchanged. -/
def replace_subject_pattern (subject deviceId placeholder : String) : String :=
  String.mk (joinSegs ((splitSegs subject.toList).map (fun seg =>
    if lowerChars seg = lowerChars deviceId.toList then placeholder.toList else seg)))

/-! ## Protocol codec: JSON values

Payloads travel as JSON (serde_json). A JSON value type embeds the wire
format; serialization of each struct follows its serde derive (field names,
declaration order, internally tagged enums via the "subject" key). -/

inductive Json where
  | null
  | bool (b : Bool)
  | num (n : Int)
  | str (s : String)
  | arr (elems : List Json)
  | obj (fields : List (String × Json))

/-- Field lookup in a JSON object literal (first match wins, as serde does for
duplicate keys it never produces). -/
def lookupField (fields : List (String × Json)) (key : String) : Option Json :=
  match fields with
  | [] => none
  | (k, v) :: rest => if k = key then some v else lookupField rest key

def Json.lookup (j : Json) (key : String) : Option Json :=
  match j with
  | .obj fields => lookupField fields key
  | _ => none

def Json.asStr : Json → Option String
  | .str s => some s
  | _ => none

/-- Parse a JSON array of strings (a serde `Vec<String>` field). -/
def parseStrList : List Json → Option (List String)
  | [] => some []
  | j :: rest => do
    let s ← j.asStr
    let ss ← parseStrList rest
    pure (s :: ss)

def Json.asStrList : Json → Option (List String)
  | .arr xs => parseStrList xs
  | _ => none

/-! ## Protocol data model (`src/nats/src/message.rs`) -/

namespace Msg

/-- Modelled from the spec: `SettingsFormat` is defined in the settings crate
outside src/ (§6 names the configurable subsystems; the use sites in
src/nats/src/message.rs and src/settings/src/printnanny.rs mention the
`Json`, `Toml` and `Yaml` variants). -/
inductive SettingsFormat where
  | json
  | toml
  | yaml
  deriving DecidableEq, Repr

def SettingsFormat.toJson : SettingsFormat → Json
  | .json => .str "json"
  | .toml => .str "toml"
  | .yaml => .str "yaml"

def Json.asFormat (j : Json) : Option SettingsFormat :=
  match j with
  | .str "json" => some .json
  | .str "toml" => some .toml
  | .str "yaml" => some .yaml
  | _ => none

/-- `pi.dbus.org.freedesktop.systemd1.Manager.StartUnit` request payload. -/
structure SystemdManagerStartUnitRequest where
  name : String
  deriving DecidableEq, Repr

/-- `pi.dbus.org.freedesktop.systemd1.Manager.RestartUnit` request payload. -/
structure SystemdManagerRestartUnitRequest where
  name : String
  deriving DecidableEq, Repr

/-- `pi.dbus.org.freedesktop.systemd1.Manager.StopUnit` request payload. -/
structure SystemdManagerStopUnitRequest where
  name : String
  deriving DecidableEq, Repr

/-- `pi.dbus.org.freedesktop.systemd1.Manager.EnableUnit` request payload. -/
structure SystemdManagerEnableUnitRequest where
  files : List String
  deriving DecidableEq, Repr

/-- `pi.dbus.org.freedesktop.systemd1.Manager.DisableUnit` request payload. -/
structure SystemdManagerDisableUnitRequest where
  files : List String
  deriving DecidableEq, Repr

/-- `pi.dbus.org.freedesktop.systemd1.Manager.ReloadUnit` request payload. -/
structure SystemdManagerReloadUnitRequest where
  name : String
  deriving DecidableEq, Repr

structure GstPipelineSettingsLoadRequest where
  format : SettingsFormat
  deriving DecidableEq, Repr

structure GstPipelineSettingsApplyRequest where
  parent_commit : String
  format : SettingsFormat
  deriving DecidableEq, Repr

structure GstPipelineSettingsRevertRequest where
  commit : String
  deriving DecidableEq, Repr

structure KlipperSettingsLoadRequest where
  format : SettingsFormat
  deriving DecidableEq, Repr

structure KlipperSettingsApplyRequest where
  parent_commit : String
  format : SettingsFormat
  deriving DecidableEq, Repr

structure KlipperSettingsRevertRequest where
  commit : String
  deriving DecidableEq, Repr

structure MoonrakerSettingsLoadRequest where
  format : SettingsFormat
  deriving DecidableEq, Repr

structure MoonrakerSettingsApplyRequest where
  parent_commit : String
  format : SettingsFormat
  deriving DecidableEq, Repr

structure MoonrakerSettingsRevertRequest where
  commit : String
  deriving DecidableEq, Repr

structure OctoPrintSettingsLoadRequest where
  format : SettingsFormat
  deriving DecidableEq, Repr

structure OctoPrintSettingsApplyRequest where
  data : String
  parent_commit : String
  format : SettingsFormat
  deriving DecidableEq, Repr

structure OctoPrintSettingsRevertRequest where
  commit : String
  deriving DecidableEq, Repr

/-- The tagged request union of `src/nats/src/message.rs` (serde internally
tagged by "subject"). Note the `ConnectPrintNannyCloudRequest` variant wraps a
`SystemdManagerStopUnitRequest` payload, exactly as in the source. -/
inductive NatsRequest where
  | ConnectPrintNannyCloudRequest (r : SystemdManagerStopUnitRequest)
  | SystemdManagerDisableUnitRequest (r : SystemdManagerDisableUnitRequest)
  | SystemdManagerEnableUnitRequest (r : SystemdManagerEnableUnitRequest)
  | SystemdManagerReloadUnitRequest (r : SystemdManagerReloadUnitRequest)
  | SystemdManagerRestartUnitRequest (r : SystemdManagerRestartUnitRequest)
  | SystemdManagerStartUnitRequest (r : SystemdManagerStartUnitRequest)
  | SystemdManagerStopUnitRequest (r : SystemdManagerStopUnitRequest)
  | GstPipelineSettingsLoadRequest (r : GstPipelineSettingsLoadRequest)
  | GstPipelineSettingsApplyRequest (r : GstPipelineSettingsApplyRequest)
  | GstPipelineSettingsRevertRequest (r : GstPipelineSettingsRevertRequest)
  | KlipperSettingsLoadRequest (r : KlipperSettingsLoadRequest)
  | KlipperSettingsApplyRequest (r : KlipperSettingsApplyRequest)
  | KlipperSettingsRevertRequest (r : KlipperSettingsRevertRequest)
  | MoonrakerSettingsLoadRequest (r : MoonrakerSettingsLoadRequest)
  | MoonrakerSettingsApplyRequest (r : MoonrakerSettingsApplyRequest)
  | MoonrakerSettingsRevertRequest (r : MoonrakerSettingsRevertRequest)
  | OctoPrintSettingsLoadRequest (r : OctoPrintSettingsLoadRequest)
  | OctoPrintSettingsApplyRequest (r : OctoPrintSettingsApplyRequest)
  | OctoPrintSettingsRevertRequest (r : OctoPrintSettingsRevertRequest)
  deriving DecidableEq, Repr

/-- The serde rename string of each variant: the canonical subject pattern
the request is dispatched under. -/
def NatsRequest.subjectPattern : NatsRequest → String
  | .ConnectPrintNannyCloudRequest _ => "pi.command.connect_printnanny_cloud_account"
  | .SystemdManagerDisableUnitRequest _ => "pi.dbus.org.freedesktop.systemd1.Manager.DisableUnit"
  | .SystemdManagerEnableUnitRequest _ => "pi.dbus.org.freedesktop.systemd1.Manager.EnableUnit"
  | .SystemdManagerReloadUnitRequest _ => "pi.dbus.org.freedesktop.systemd1.Manager.ReloadUnit"
  | .SystemdManagerRestartUnitRequest _ => "pi.dbus.org.freedesktop.systemd1.Manager.RestartUnit"
  | .SystemdManagerStartUnitRequest _ => "pi.dbus.org.freedesktop.systemd1.Manager.StartUnit"
  | .SystemdManagerStopUnitRequest _ => "pi.dbus.org.freedesktop.systemd1.Manager.StopUnit"
  | .GstPipelineSettingsLoadRequest _ => "pi.settings.gst_pipeline.load"
  | .GstPipelineSettingsApplyRequest _ => "pi.settings.gst_pipeline.apply"
  | .GstPipelineSettingsRevertRequest _ => "pi.settings.gst_pipeline.revert"
  | .KlipperSettingsLoadRequest _ => "pi.settings.klipper.load"
  | .KlipperSettingsApplyRequest _ => "pi.settings.klipper.apply"
  | .KlipperSettingsRevertRequest _ => "pi.settings.klipper.revert"
  | .MoonrakerSettingsLoadRequest _ => "pi.settings.moonraker.load"
  | .MoonrakerSettingsApplyRequest _ => "pi.settings.moonraker.apply"
  | .MoonrakerSettingsRevertRequest _ => "pi.settings.moonraker.revert"
  | .OctoPrintSettingsLoadRequest _ => "pi.settings.octoprint.load"
  | .OctoPrintSettingsApplyRequest _ => "pi.settings.octoprint.apply"
  | .OctoPrintSettingsRevertRequest _ => "pi.settings.octoprint.revert"

def strArr (xs : List String) : Json := .arr (xs.map .str)

/-- serde_json serialization of `NatsRequest`: an object whose "subject" key
carries the variant tag, followed by the variant's fields in declaration
order. -/
def NatsRequest.toJson (r : NatsRequest) : Json :=
  .obj (("subject", .str r.subjectPattern) ::
    match r with
    | .ConnectPrintNannyCloudRequest q => [("name", .str q.name)]
    | .SystemdManagerDisableUnitRequest q => [("files", strArr q.files)]
    | .SystemdManagerEnableUnitRequest q => [("files", strArr q.files)]
    | .SystemdManagerReloadUnitRequest q => [("name", .str q.name)]
    | .SystemdManagerRestartUnitRequest q => [("name", .str q.name)]
    | .SystemdManagerStartUnitRequest q => [("name", .str q.name)]
    | .SystemdManagerStopUnitRequest q => [("name", .str q.name)]
    | .GstPipelineSettingsLoadRequest q => [("format", q.format.toJson)]
    | .GstPipelineSettingsApplyRequest q =>
        [("parent_commit", .str q.parent_commit), ("format", q.format.toJson)]
    | .GstPipelineSettingsRevertRequest q => [("commit", .str q.commit)]
    | .KlipperSettingsLoadRequest q => [("format", q.format.toJson)]
    | .KlipperSettingsApplyRequest q =>
        [("parent_commit", .str q.parent_commit), ("format", q.format.toJson)]
    | .KlipperSettingsRevertRequest q => [("commit", .str q.commit)]
    | .MoonrakerSettingsLoadRequest q => [("format", q.format.toJson)]
    | .MoonrakerSettingsApplyRequest q =>
        [("parent_commit", .str q.parent_commit), ("format", q.format.toJson)]
    | .MoonrakerSettingsRevertRequest q => [("commit", .str q.commit)]
    | .OctoPrintSettingsLoadRequest q => [("format", q.format.toJson)]
    | .OctoPrintSettingsApplyRequest q =>
        [("data", .str q.data), ("parent_commit", .str q.parent_commit),
         ("format", q.format.toJson)]
    | .OctoPrintSettingsRevertRequest q => [("commit", .str q.commit)])

def parseName (j : Json) : Option String := (j.lookup "name").bind Json.asStr

def parseFiles (j : Json) : Option (List String) :=
  (j.lookup "files").bind Json.asStrList

def parseFormat (j : Json) : Option SettingsFormat :=
  (j.lookup "format").bind Json.asFormat

def parseParentCommit (j : Json) : Option String :=
  (j.lookup "parent_commit").bind Json.asStr

def parseCommit (j : Json) : Option String := (j.lookup "commit").bind Json.asStr

def parseData (j : Json) : Option String := (j.lookup "data").bind Json.asStr

/-- Payload deserialization per variant tag, following the serde derive on
`NatsRequest` (internally tagged by "subject"). -/
def decodeByTag (tag : String) (j : Json) : Option NatsRequest :=
  if tag = "pi.command.connect_printnanny_cloud_account" then
    (parseName j).map (fun n => .ConnectPrintNannyCloudRequest ⟨n⟩)
  else if tag = "pi.dbus.org.freedesktop.systemd1.Manager.DisableUnit" then
    (parseFiles j).map (fun fs => .SystemdManagerDisableUnitRequest ⟨fs⟩)
  else if tag = "pi.dbus.org.freedesktop.systemd1.Manager.EnableUnit" then
    (parseFiles j).map (fun fs => .SystemdManagerEnableUnitRequest ⟨fs⟩)
  else if tag = "pi.dbus.org.freedesktop.systemd1.Manager.ReloadUnit" then
    (parseName j).map (fun n => .SystemdManagerReloadUnitRequest ⟨n⟩)
  else if tag = "pi.dbus.org.freedesktop.systemd1.Manager.RestartUnit" then
    (parseName j).map (fun n => .SystemdManagerRestartUnitRequest ⟨n⟩)
  else if tag = "pi.dbus.org.freedesktop.systemd1.Manager.StartUnit" then
    (parseName j).map (fun n => .SystemdManagerStartUnitRequest ⟨n⟩)
  else if tag = "pi.dbus.org.freedesktop.systemd1.Manager.StopUnit" then
    (parseName j).map (fun n => .SystemdManagerStopUnitRequest ⟨n⟩)
  else if tag = "pi.settings.gst_pipeline.load" then
    (parseFormat j).map (fun f => .GstPipelineSettingsLoadRequest ⟨f⟩)
  else if tag = "pi.settings.gst_pipeline.apply" then
    (parseParentCommit j).bind (fun pc =>
      (parseFormat j).map (fun f => .GstPipelineSettingsApplyRequest ⟨pc, f⟩))
  else if tag = "pi.settings.gst_pipeline.revert" then
    (parseCommit j).map (fun c => .GstPipelineSettingsRevertRequest ⟨c⟩)
  else if tag = "pi.settings.klipper.load" then
    (parseFormat j).map (fun f => .KlipperSettingsLoadRequest ⟨f⟩)
  else if tag = "pi.settings.klipper.apply" then
    (parseParentCommit j).bind (fun pc =>
      (parseFormat j).map (fun f => .KlipperSettingsApplyRequest ⟨pc, f⟩))
  else if tag = "pi.settings.klipper.revert" then
    (parseCommit j).map (fun c => .KlipperSettingsRevertRequest ⟨c⟩)
  else if tag = "pi.settings.moonraker.load" then
    (parseFormat j).map (fun f => .MoonrakerSettingsLoadRequest ⟨f⟩)
  else if tag = "pi.settings.moonraker.apply" then
    (parseParentCommit j).bind (fun pc =>
      (parseFormat j).map (fun f => .MoonrakerSettingsApplyRequest ⟨pc, f⟩))
  else if tag = "pi.settings.moonraker.revert" then
    (parseCommit j).map (fun c => .MoonrakerSettingsRevertRequest ⟨c⟩)
  else if tag = "pi.settings.octoprint.load" then
    (parseFormat j).map (fun f => .OctoPrintSettingsLoadRequest ⟨f⟩)
  else if tag = "pi.settings.octoprint.apply" then
    (parseData j).bind (fun d =>
      (parseParentCommit j).bind (fun pc =>
        (parseFormat j).map (fun f => .OctoPrintSettingsApplyRequest ⟨d, pc, f⟩)))
  else if tag = "pi.settings.octoprint.revert" then
    (parseCommit j).map (fun c => .OctoPrintSettingsRevertRequest ⟨c⟩)
  else none

/-- Modelled from the spec: the `deserialize_payload` trait implementation is
not under src/. Per spec §4.2 decoding is keyed by the canonical pattern
(unknown patterns and malformed payloads fail); the payload parsing follows
the serde derive on `NatsRequest`, whose internal "subject" tag must agree
with the pattern. -/
def deserialize_payload (pattern : String) (j : Json) : Option NatsRequest :=
  match j.lookup "subject" with
  | some (.str tag) => if tag = pattern then decodeByTag tag j else none
  | _ => none

/-! ## Reply data model (`src/nats/src/message.rs`)

`zbus::zvariant::OwnedObjectPath` job handles are modelled as strings;
`enable_unit_files`/`disable_unit_files` changes are string triples. -/

structure SystemdManagerStartUnitReply where
  request : SystemdManagerStartUnitRequest
  job : String
  deriving DecidableEq, Repr

structure SystemdManagerRestartUnitReply where
  request : SystemdManagerRestartUnitRequest
  job : String
  deriving DecidableEq, Repr

structure SystemdManagerStopUnitReply where
  request : SystemdManagerStopUnitRequest
  job : String
  deriving DecidableEq, Repr

structure SystemdManagerEnableUnitReply where
  request : SystemdManagerEnableUnitRequest
  changes : List (String × String × String)
  deriving DecidableEq, Repr

structure SystemdManagerDisableUnitReply where
  request : SystemdManagerDisableUnitRequest
  changes : List (String × String × String)
  deriving DecidableEq, Repr

structure SystemdManagerReloadUnitReply where
  request : SystemdManagerReloadUnitRequest
  job : String
  deriving DecidableEq, Repr

/-- Reply struct without a `request` echo field, exactly as in the source. -/
structure GstPipelineSettingsLoadReply where
  data : String
  format : SettingsFormat
  parent_commit : String
  deriving DecidableEq, Repr

structure GstPipelineSettingsApplyReply where
  data : String
  format : SettingsFormat
  parent_commit : String
  commit : String
  deriving DecidableEq, Repr

structure GstPipelineSettingsRevertReply where
  data : String
  format : SettingsFormat
  parent_commit : String
  deriving DecidableEq, Repr

structure KlipperSettingsLoadReply where
  data : String
  format : SettingsFormat
  parent_commit : String
  deriving DecidableEq, Repr

structure KlipperSettingsApplyReply where
  data : String
  format : SettingsFormat
  parent_commit : String
  commit : String
  deriving DecidableEq, Repr

structure KlipperSettingsRevertReply where
  data : String
  format : SettingsFormat
  parent_commit : String
  deriving DecidableEq, Repr

structure MoonrakerSettingsLoadReply where
  data : String
  format : SettingsFormat
  parent_commit : String
  deriving DecidableEq, Repr

structure MoonrakerSettingsApplyReply where
  data : String
  format : SettingsFormat
  parent_commit : String
  commit : String
  deriving DecidableEq, Repr

structure MoonrakerSettingsRevertReply where
  data : String
  format : SettingsFormat
  parent_commit : String
  deriving DecidableEq, Repr

structure OctoPrintSettingsLoadReply where
  request : OctoPrintSettingsLoadRequest
  data : String
  format : SettingsFormat
  parent_commit : String
  deriving DecidableEq, Repr

structure OctoPrintSettingsApplyReply where
  request : OctoPrintSettingsApplyRequest
  data : String
  format : SettingsFormat
  parent_commit : String
  commit : String
  deriving DecidableEq, Repr

structure OctoPrintSettingsRevertReply where
  data : String
  format : SettingsFormat
  parent_commit : String
  deriving DecidableEq, Repr

/-- The tagged reply union of `src/nats/src/message.rs`. The
`ConnectPrintNannyCloudReply` variant wraps a `SystemdManagerStopUnitReply`,
as in the source. -/
inductive NatsReply where
  | ConnectPrintNannyCloudReply (r : SystemdManagerStopUnitReply)
  | SystemdManagerDisableUnitReply (r : SystemdManagerDisableUnitReply)
  | SystemdManagerEnableUnitReply (r : SystemdManagerEnableUnitReply)
  | SystemdManagerReloadUnitReply (r : SystemdManagerReloadUnitReply)
  | SystemdManagerRestartUnitReply (r : SystemdManagerRestartUnitReply)
  | SystemdManagerStartUnitReply (r : SystemdManagerStartUnitReply)
  | SystemdManagerStopUnitReply (r : SystemdManagerStopUnitReply)
  | GstPipelineSettingsLoadReply (r : GstPipelineSettingsLoadReply)
  | GstPipelineSettingsApplyReply (r : GstPipelineSettingsApplyReply)
  | GstPipelineSettingsRevertReply (r : GstPipelineSettingsRevertReply)
  | KlipperSettingsLoadReply (r : KlipperSettingsLoadReply)
  | KlipperSettingsApplyReply (r : KlipperSettingsApplyReply)
  | KlipperSettingsRevertReply (r : KlipperSettingsRevertReply)
  | MoonrakerSettingsLoadReply (r : MoonrakerSettingsLoadReply)
  | MoonrakerSettingsApplyReply (r : MoonrakerSettingsApplyReply)
  | MoonrakerSettingsRevertReply (r : MoonrakerSettingsRevertReply)
  | OctoPrintSettingsLoadReply (r : OctoPrintSettingsLoadReply)
  | OctoPrintSettingsApplyReply (r : OctoPrintSettingsApplyReply)
  | OctoPrintSettingsRevertReply (r : OctoPrintSettingsRevertReply)
  deriving DecidableEq, Repr

/-! ## Handlers (`NatsRequestReplyHandler::handle` in message.rs)

Each handler either reaches a `todo!()` stub (the spawned task panics),
returns a typed reply, or propagates a collaborator error. Collaborator
outcomes (the zbus systemd1 proxy and the on-disk settings loader, both
external to the messaging engine) are supplied through an environment. -/

inductive HOut (α : Type) where
  | stub
  | ok (a : α)
  | err (e : String)
  deriving DecidableEq, Repr

/-- Collaborator outcomes for one handler invocation: each field stands for
the full fallible chain of one external operation (dbus connection + proxy +
method call, or the settings store access). -/
structure HandlerEnv where
  startUnit : String → Except String String
  stopUnit : String → Except String String
  restartUnit : String → Except String String
  enableUnitFiles : List String → Except String (List (String × String × String))
  disableUnitFiles : List String → Except String (List (String × String × String))
  settingsNew : Except String Unit
  octoprintGitParentCommit : Except String String
  octoprintReadSettings : Except String String

def SystemdManagerStartUnitRequest.handle (self : SystemdManagerStartUnitRequest)
    (env : HandlerEnv) : HOut SystemdManagerStartUnitReply :=
  match env.startUnit self.name with
  | .ok job => .ok { request := self, job := job }
  | .error e => .err e

def SystemdManagerRestartUnitRequest.handle (self : SystemdManagerRestartUnitRequest)
    (env : HandlerEnv) : HOut SystemdManagerRestartUnitReply :=
  match env.restartUnit self.name with
  | .ok job => .ok { request := self, job := job }
  | .error e => .err e

def SystemdManagerStopUnitRequest.handle (self : SystemdManagerStopUnitRequest)
    (env : HandlerEnv) : HOut SystemdManagerStopUnitReply :=
  match env.stopUnit self.name with
  | .ok job => .ok { request := self, job := job }
  | .error e => .err e

def SystemdManagerEnableUnitRequest.handle (self : SystemdManagerEnableUnitRequest)
    (env : HandlerEnv) : HOut SystemdManagerEnableUnitReply :=
  match env.enableUnitFiles self.files with
  | .ok changes => .ok { request := self, changes := changes }
  | .error e => .err e

def SystemdManagerDisableUnitRequest.handle (self : SystemdManagerDisableUnitRequest)
    (env : HandlerEnv) : HOut SystemdManagerDisableUnitReply :=
  match env.disableUnitFiles self.files with
  | .ok changes => .ok { request := self, changes := changes }
  | .error e => .err e

/-- The reload handler calls `proxy.restart_unit` in the source
(src/nats/src/message.rs:193), not `reload_unit`. -/
def SystemdManagerReloadUnitRequest.handle (self : SystemdManagerReloadUnitRequest)
    (env : HandlerEnv) : HOut SystemdManagerReloadUnitReply :=
  match env.restartUnit self.name with
  | .ok job => .ok { request := self, job := job }
  | .error e => .err e

/-- `PrintNannySettings::new()?`, then `get_git_parent_commit()?`, then
`read_settings()?`; the reply's format is hard-coded to Yaml in the source. -/
def OctoPrintSettingsLoadRequest.handle (self : OctoPrintSettingsLoadRequest)
    (env : HandlerEnv) : HOut OctoPrintSettingsLoadReply :=
  match env.settingsNew with
  | .error e => .err e
  | .ok _ =>
    match env.octoprintGitParentCommit with
    | .error e => .err e
    | .ok parentCommit =>
      match env.octoprintReadSettings with
      | .error e => .err e
      | .ok data =>
        .ok { request := self, data := data, format := .yaml, parent_commit := parentCommit }

/-- `OctoPrintSettingsApplyRequest::handle` is a `todo!()` stub
(src/nats/src/message.rs:518). -/
def OctoPrintSettingsApplyRequest.handle (_self : OctoPrintSettingsApplyRequest)
    (_env : HandlerEnv) : HOut OctoPrintSettingsApplyReply :=
  .stub

/-- Top-level dispatch of `NatsRequest::handle`
(src/nats/src/message.rs:660-713): six systemd-manager variants and the
OctoPrint load/apply variants delegate to their payload handlers; every other
arm is a `todo!()` stub. -/
def NatsRequest.handle (self : NatsRequest) (env : HandlerEnv) : HOut NatsReply :=
  match self with
  | .SystemdManagerDisableUnitRequest request =>
    match request.handle env with
    | .ok r => .ok (.SystemdManagerDisableUnitReply r)
    | .err e => .err e
    | .stub => .stub
  | .SystemdManagerEnableUnitRequest request =>
    match request.handle env with
    | .ok r => .ok (.SystemdManagerEnableUnitReply r)
    | .err e => .err e
    | .stub => .stub
  | .SystemdManagerReloadUnitRequest request =>
    match request.handle env with
    | .ok r => .ok (.SystemdManagerReloadUnitReply r)
    | .err e => .err e
    | .stub => .stub
  | .SystemdManagerRestartUnitRequest request =>
    match request.handle env with
    | .ok r => .ok (.SystemdManagerRestartUnitReply r)
    | .err e => .err e
    | .stub => .stub
  | .SystemdManagerStartUnitRequest request =>
    match request.handle env with
    | .ok r => .ok (.SystemdManagerStartUnitReply r)
    | .err e => .err e
    | .stub => .stub
  | .SystemdManagerStopUnitRequest request =>
    match request.handle env with
    | .ok r => .ok (.SystemdManagerStopUnitReply r)
    | .err e => .err e
    | .stub => .stub
  | .ConnectPrintNannyCloudRequest _ => .stub
  | .GstPipelineSettingsLoadRequest _ => .stub
  | .GstPipelineSettingsApplyRequest _ => .stub
  | .GstPipelineSettingsRevertRequest _ => .stub
  | .KlipperSettingsLoadRequest _ => .stub
  | .KlipperSettingsApplyRequest _ => .stub
  | .KlipperSettingsRevertRequest _ => .stub
  | .MoonrakerSettingsLoadRequest _ => .stub
  | .MoonrakerSettingsApplyRequest _ => .stub
  | .MoonrakerSettingsRevertRequest _ => .stub
  | .OctoPrintSettingsLoadRequest request =>
    match request.handle env with
    | .ok r => .ok (.OctoPrintSettingsLoadReply r)
    | .err e => .err e
    | .stub => .stub
  | .OctoPrintSettingsApplyRequest request =>
    match request.handle env with
    | .ok r => .ok (.OctoPrintSettingsApplyReply r)
    | .err e => .err e
    | .stub => .stub
  | .OctoPrintSettingsRevertRequest _ => .stub

/-- A reply echoes its originating request: the matching reply variant embeds
exactly the request payload. Reply variants lacking a `request` field cannot
echo. -/
def replyEchoes (req : NatsRequest) (rep : NatsReply) : Prop :=
  match req, rep with
  | .ConnectPrintNannyCloudRequest q, .ConnectPrintNannyCloudReply r => r.request = q
  | .SystemdManagerDisableUnitRequest q, .SystemdManagerDisableUnitReply r => r.request = q
  | .SystemdManagerEnableUnitRequest q, .SystemdManagerEnableUnitReply r => r.request = q
  | .SystemdManagerReloadUnitRequest q, .SystemdManagerReloadUnitReply r => r.request = q
  | .SystemdManagerRestartUnitRequest q, .SystemdManagerRestartUnitReply r => r.request = q
  | .SystemdManagerStartUnitRequest q, .SystemdManagerStartUnitReply r => r.request = q
  | .SystemdManagerStopUnitRequest q, .SystemdManagerStopUnitReply r => r.request = q
  | .OctoPrintSettingsLoadRequest q, .OctoPrintSettingsLoadReply r => r.request = q
  | .OctoPrintSettingsApplyRequest q, .OctoPrintSettingsApplyReply r => r.request = q
  | _, _ => False

/-- The variants whose handling path reaches a `todo!()` stub: the
pi.command connect variant, all gst_pipeline, klipper and moonraker settings
variants, and the OctoPrint apply/revert variants (apply reaches the inner
`todo!()` of `OctoPrintSettingsApplyRequest::handle`). -/
def NatsRequest.isStubbed : NatsRequest → Bool
  | .ConnectPrintNannyCloudRequest _ => true
  | .GstPipelineSettingsLoadRequest _ => true
  | .GstPipelineSettingsApplyRequest _ => true
  | .GstPipelineSettingsRevertRequest _ => true
  | .KlipperSettingsLoadRequest _ => true
  | .KlipperSettingsApplyRequest _ => true
  | .KlipperSettingsRevertRequest _ => true
  | .MoonrakerSettingsLoadRequest _ => true
  | .MoonrakerSettingsApplyRequest _ => true
  | .MoonrakerSettingsRevertRequest _ => true
  | .OctoPrintSettingsApplyRequest _ => true
  | .OctoPrintSettingsRevertRequest _ => true
  | _ => false

def HOut.isStub {α : Type} : HOut α → Bool
  | .stub => true
  | _ => false

/-! Reply serialization (serde_json::to_vec in `handle_request`). -/

def SystemdManagerStopUnitRequest.plainJson (q : SystemdManagerStopUnitRequest) : Json :=
  .obj [("name", .str q.name)]

def SystemdManagerStartUnitRequest.plainJson (q : SystemdManagerStartUnitRequest) : Json :=
  .obj [("name", .str q.name)]

def SystemdManagerRestartUnitRequest.plainJson (q : SystemdManagerRestartUnitRequest) : Json :=
  .obj [("name", .str q.name)]

def SystemdManagerReloadUnitRequest.plainJson (q : SystemdManagerReloadUnitRequest) : Json :=
  .obj [("name", .str q.name)]

def SystemdManagerEnableUnitRequest.plainJson (q : SystemdManagerEnableUnitRequest) : Json :=
  .obj [("files", strArr q.files)]

def SystemdManagerDisableUnitRequest.plainJson (q : SystemdManagerDisableUnitRequest) : Json :=
  .obj [("files", strArr q.files)]

def OctoPrintSettingsLoadRequest.plainJson (q : OctoPrintSettingsLoadRequest) : Json :=
  .obj [("format", q.format.toJson)]

def OctoPrintSettingsApplyRequest.plainJson (q : OctoPrintSettingsApplyRequest) : Json :=
  .obj [("data", .str q.data), ("parent_commit", .str q.parent_commit),
        ("format", q.format.toJson)]

def changesJson (cs : List (String × String × String)) : Json :=
  .arr (cs.map (fun c => .arr [.str c.1, .str c.2.1, .str c.2.2]))

/-- The serde rename string of each reply variant (identical to the request
side's canonical subject patterns). -/
def NatsReply.subjectPattern : NatsReply → String
  | .ConnectPrintNannyCloudReply _ => "pi.command.connect_printnanny_cloud_account"
  | .SystemdManagerDisableUnitReply _ => "pi.dbus.org.freedesktop.systemd1.Manager.DisableUnit"
  | .SystemdManagerEnableUnitReply _ => "pi.dbus.org.freedesktop.systemd1.Manager.EnableUnit"
  | .SystemdManagerReloadUnitReply _ => "pi.dbus.org.freedesktop.systemd1.Manager.ReloadUnit"
  | .SystemdManagerRestartUnitReply _ => "pi.dbus.org.freedesktop.systemd1.Manager.RestartUnit"
  | .SystemdManagerStartUnitReply _ => "pi.dbus.org.freedesktop.systemd1.Manager.StartUnit"
  | .SystemdManagerStopUnitReply _ => "pi.dbus.org.freedesktop.systemd1.Manager.StopUnit"
  | .GstPipelineSettingsLoadReply _ => "pi.settings.gst_pipeline.load"
  | .GstPipelineSettingsApplyReply _ => "pi.settings.gst_pipeline.apply"
  | .GstPipelineSettingsRevertReply _ => "pi.settings.gst_pipeline.revert"
  | .KlipperSettingsLoadReply _ => "pi.settings.klipper.load"
  | .KlipperSettingsApplyReply _ => "pi.settings.klipper.apply"
  | .KlipperSettingsRevertReply _ => "pi.settings.klipper.revert"
  | .MoonrakerSettingsLoadReply _ => "pi.settings.moonraker.load"
  | .MoonrakerSettingsApplyReply _ => "pi.settings.moonraker.apply"
  | .MoonrakerSettingsRevertReply _ => "pi.settings.moonraker.revert"
  | .OctoPrintSettingsLoadReply _ => "pi.settings.octoprint.load"
  | .OctoPrintSettingsApplyReply _ => "pi.settings.octoprint.apply"
  | .OctoPrintSettingsRevertReply _ => "pi.settings.octoprint.revert"

/-- serde_json serialization of `NatsReply` (internally tagged by
"subject", fields in declaration order, embedded request structs as plain
objects). -/
def NatsReply.toJson (r : NatsReply) : Json :=
  .obj (("subject", .str r.subjectPattern) ::
    match r with
    | .ConnectPrintNannyCloudReply x =>
        [("request", x.request.plainJson), ("job", .str x.job)]
    | .SystemdManagerDisableUnitReply x =>
        [("request", x.request.plainJson), ("changes", changesJson x.changes)]
    | .SystemdManagerEnableUnitReply x =>
        [("request", x.request.plainJson), ("changes", changesJson x.changes)]
    | .SystemdManagerReloadUnitReply x =>
        [("request", x.request.plainJson), ("job", .str x.job)]
    | .SystemdManagerRestartUnitReply x =>
        [("request", x.request.plainJson), ("job", .str x.job)]
    | .SystemdManagerStartUnitReply x =>
        [("request", x.request.plainJson), ("job", .str x.job)]
    | .SystemdManagerStopUnitReply x =>
        [("request", x.request.plainJson), ("job", .str x.job)]
    | .GstPipelineSettingsLoadReply x =>
        [("data", .str x.data), ("format", x.format.toJson),
         ("parent_commit", .str x.parent_commit)]
    | .GstPipelineSettingsApplyReply x =>
        [("data", .str x.data), ("format", x.format.toJson),
         ("parent_commit", .str x.parent_commit), ("commit", .str x.commit)]
    | .GstPipelineSettingsRevertReply x =>
        [("data", .str x.data), ("format", x.format.toJson),
         ("parent_commit", .str x.parent_commit)]
    | .KlipperSettingsLoadReply x =>
        [("data", .str x.data), ("format", x.format.toJson),
         ("parent_commit", .str x.parent_commit)]
    | .KlipperSettingsApplyReply x =>
        [("data", .str x.data), ("format", x.format.toJson),
         ("parent_commit", .str x.parent_commit), ("commit", .str x.commit)]
    | .KlipperSettingsRevertReply x =>
        [("data", .str x.data), ("format", x.format.toJson),
         ("parent_commit", .str x.parent_commit)]
    | .MoonrakerSettingsLoadReply x =>
        [("data", .str x.data), ("format", x.format.toJson),
         ("parent_commit", .str x.parent_commit)]
    | .MoonrakerSettingsApplyReply x =>
        [("data", .str x.data), ("format", x.format.toJson),
         ("parent_commit", .str x.parent_commit), ("commit", .str x.commit)]
    | .MoonrakerSettingsRevertReply x =>
        [("data", .str x.data), ("format", x.format.toJson),
         ("parent_commit", .str x.parent_commit)]
    | .OctoPrintSettingsLoadReply x =>
        [("request", x.request.plainJson), ("data", .str x.data),
         ("format", x.format.toJson), ("parent_commit", .str x.parent_commit)]
    | .OctoPrintSettingsApplyReply x =>
        [("request", x.request.plainJson), ("data", .str x.data),
         ("format", x.format.toJson), ("parent_commit", .str x.parent_commit),
         ("commit", .str x.commit)]
    | .OctoPrintSettingsRevertReply x =>
        [("data", .str x.data), ("format", x.format.toJson),
         ("parent_commit", .str x.parent_commit)])

end Msg

/-! ## The second protocol version (`src/nats/src/message_v2.rs`): a
systemd-only union with a single live variant. -/

namespace MsgV2

structure SystemdManagerStartUnitRequest where
  name : String
  deriving DecidableEq, Repr

inductive NatsRequest where
  | SystemdManagerStartUnitRequest (r : SystemdManagerStartUnitRequest)
  deriving DecidableEq, Repr

def NatsRequest.subjectPattern : NatsRequest → String
  | .SystemdManagerStartUnitRequest _ => "pi.dbus.org.freedesktop.systemd1.Manager.StartUnit"

def NatsRequest.toJson : NatsRequest → Json
  | .SystemdManagerStartUnitRequest q =>
    .obj [("subject", .str "pi.dbus.org.freedesktop.systemd1.Manager.StartUnit"),
          ("name", .str q.name)]

/-- Modelled from the spec: the `deserialize_payload` trait implementation is
not under src/; decoding is keyed by the canonical pattern (§4.2) and the
payload parsing follows the serde derive on the v2 `NatsRequest`. -/
def deserialize_payload (pattern : String) (j : Json) : Option NatsRequest :=
  match j.lookup "subject" with
  | some (.str tag) =>
    if tag = pattern ∧ tag = "pi.dbus.org.freedesktop.systemd1.Manager.StartUnit" then
      ((j.lookup "name").bind Json.asStr).map (fun n => .SystemdManagerStartUnitRequest ⟨n⟩)
    else none
  | _ => none

end MsgV2

/-! ## Concurrent dispatcher (`src/nats/src/subscriber.rs`)

The per-message closure of `subscribe_nats_subject`
(src/nats/src/subscriber.rs:156-180): canonicalize the subject, decode,
and — only when a reply inbox is present — invoke the handler and publish its
serialized outcome; decode failures are logged and dropped. The subscriber is
generic over the request type; it is embedded here at `Msg.NatsRequest`. -/

namespace Dispatcher

/-- An inbound transport message: subject, optional reply inbox, payload. -/
structure NatsMessage where
  subject : String
  reply : Option String
  payload : Json

/-- Configuration fields of `NatsSubscriber` used by the per-message path.
The hostname is lowercased at construction (src/nats/src/subscriber.rs:118). -/
structure SubscriberCfg where
  hostname : String

/-- Observable effects of processing one message, in order. -/
inductive DispatchAction where
  | handlerInvoked (req : Msg.NatsRequest)
  | published (subject : String) (payload : Json)
  | publishErrorLogged
  | decodeErrorLogged

/-- The error envelope `RequestErrorMsg` built at
src/nats/src/subscriber.rs:210-214 (struct declared in the crate's error
module outside src/; the fields and their order follow the construction
site): error string, canonical subject pattern, original request. -/
structure RequestErrorMsg where
  error : String
  subject_pattern : String
  request : Msg.NatsRequest

def encodeRequestErrorMsg (m : RequestErrorMsg) : Json :=
  .obj [("error", .str m.error), ("subject_pattern", .str m.subject_pattern),
        ("request", m.request.toJson)]

/-- `NatsSubscriber::handle_request` (src/nats/src/subscriber.rs:206-218):
serialize the typed reply on success, or a `RequestErrorMsg` wrapping the
original request on failure. A `todo!()` panic unwinds the task and produces
no bytes at all, modelled as `none`. -/
def handle_request (env : Msg.HandlerEnv) (request : Msg.NatsRequest)
    (subject_pattern : String) : Option Json :=
  match request.handle env with
  | .ok r => some r.toJson
  | .err e => some (encodeRequestErrorMsg
      { error := e, subject_pattern := subject_pattern, request := request })
  | .stub => none

/-- One iteration of the subscription loop body
(src/nats/src/subscriber.rs:156-180). `publishOk` is the outcome of the
reply-publish call on the shared transport handle. -/
def processMessage (cfg : SubscriberCfg) (env : Msg.HandlerEnv) (publishOk : Bool)
    (msg : NatsMessage) : List DispatchAction :=
  let subject_pattern := replace_subject_pattern msg.subject cfg.hostname "{pi_id}"
  match Msg.deserialize_payload subject_pattern msg.payload with
  | some request =>
    match msg.reply with
    | some reply_inbox =>
      .handlerInvoked request ::
        match handle_request env request subject_pattern with
        | some payload =>
          if publishOk then [.published reply_inbox payload] else [.publishErrorLogged]
        | none => []
    | none => []
  | none => [.decodeErrorLogged]

def DispatchAction.isHandlerInvoked : DispatchAction → Bool
  | .handlerInvoked _ => true
  | _ => false

def DispatchAction.isPublished : DispatchAction → Bool
  | .published _ _ => true
  | _ => false

/-! ### Worker pool bound

`for_each_concurrent(self.workers, ...)` (src/nats/src/subscriber.rs:156)
bounds the number of closure invocations running at once; its documented
semantics are embedded as a step relation: a queued message may only start
while fewer than `workers` handlers run, additional messages stay queued. -/

structure DispatcherState where
  pending : List NatsMessage
  running : Nat

inductive DispatcherStep (workers : Nat) : DispatcherState → DispatcherState → Prop
  | start (m : NatsMessage) (rest : List NatsMessage) (r : Nat) :
      r < workers → DispatcherStep workers ⟨m :: rest, r⟩ ⟨rest, r + 1⟩
  | finish (p : List NatsMessage) (r : Nat) :
      DispatcherStep workers ⟨p, r + 1⟩ ⟨p, r⟩
  | arrive (p : List NatsMessage) (r : Nat) (m : NatsMessage) :
      DispatcherStep workers ⟨p, r⟩ ⟨p ++ [m], r⟩

inductive DispatcherReachable (workers : Nat) : DispatcherState → Prop
  | init : DispatcherReachable workers ⟨[], 0⟩
  | step {s s' : DispatcherState} : DispatcherReachable workers s →
      DispatcherStep workers s s' → DispatcherReachable workers s'

/-- Decimal digit value of a character in an ASCII `usize` literal. -/
def digitVal (c : Char) : Option Nat :=
  if '0' ≤ c ∧ c ≤ '9' then some (c.toNat - 48) else none

def parseNatChars : List Char → Nat → Option Nat
  | [], acc => some acc
  | c :: rest, acc =>
    match digitVal c with
    | some d => parseNatChars rest (acc * 10 + d)
    | none => none

/-- Rust `usize::from_str` on a flag value: nonempty all-digit strings
parse, anything else fails. -/
def parseUsize (s : String) : Option Nat :=
  match s.toList with
  | [] => none
  | l => parseNatChars l 0

/-- Worker-count resolution (src/nats/src/subscriber.rs:119 together with the
clap default "8" at line 82): the flag value (default "8") is parsed as
usize, and an unparsable value falls back to 8 via `unwrap_or(8)`. -/
def parse_workers (arg : Option String) : Nat :=
  (parseUsize (arg.getD "8")).getD 8

end Dispatcher

/-! ## Domain command handlers and status state machine
(`src/nats/src/commands.rs`)

The event-type enums come from the external API-client models crate; the
constructors below are the ones the source matches on or publishes (the boot
command match has a wildcard arm, embedded as `other`). -/

namespace Cmds

inductive PiBootCommandType where
  | reboot
  | shutdown
  | other
  deriving DecidableEq, Repr

inductive PiCamCommandType where
  | camStart
  | camStop
  deriving DecidableEq, Repr

inductive PiSoftwareUpdateCommandType where
  | swupdate
  | swupdateRollback
  deriving DecidableEq, Repr

inductive PiBootStatusType where
  | rebootStarted
  | rebootError
  deriving DecidableEq, Repr

inductive PiCamStatusType where
  | camStarted
  | camStartSuccess
  | camStopped
  | camError
  deriving DecidableEq, Repr

inductive PiSoftwareUpdateStatusType where
  | swupdateStarted
  | swupdateSuccess
  | swupdateError
  deriving DecidableEq, Repr

/-- A value stored in a status payload map: `serde_json::to_value` of the
subprocess exit code (null when the process was signalled), or a captured
output string. -/
inductive PayloadValue where
  | exitCode (code : Option Int)
  | str (s : String)
  deriving DecidableEq, Repr

/-- The `HashMap<String, serde_json::Value>` payload, as its entries in
insertion order. -/
abbrev StatusPayload := List (String × PayloadValue)

structure PiBootCommandRequest where
  pi : Int
  event_type : PiBootCommandType
  deriving DecidableEq, Repr

structure PiCamCommandRequest where
  pi : Int
  event_type : PiCamCommandType
  deriving DecidableEq, Repr

structure PiSoftwareUpdateCommandRequest where
  pi : Int
  version : String
  event_type : PiSoftwareUpdateCommandType
  deriving DecidableEq, Repr

structure PiBootStatusRequest where
  payload : Option StatusPayload
  event_type : PiBootStatusType
  pi : Int
  id : Option String
  created_dt : Option String
  deriving DecidableEq, Repr

structure PiCamStatusRequest where
  payload : Option StatusPayload
  event_type : PiCamStatusType
  pi : Int
  id : Option String
  created_dt : Option String
  deriving DecidableEq, Repr

structure PiSoftwareUpdateStatusRequest where
  payload : Option StatusPayload
  event_type : PiSoftwareUpdateStatusType
  pi : Int
  version : String
  id : Option String
  created_dt : Option String
  deriving DecidableEq, Repr

/-- The status-event side of `PolymorphicPiEventRequest`: the variants the
command handlers publish. -/
inductive StatusEvent where
  | piBootStatus (e : PiBootStatusRequest)
  | piCamStatus (e : PiCamStatusRequest)
  | piSoftwareUpdateStatus (e : PiSoftwareUpdateStatusRequest)
  deriving DecidableEq, Repr

/-- The lifecycle phase a published event type belongs to
(`Started → {Success | Error}`, spec §4.5). -/
inductive Phase where
  | started
  | success
  | error
  deriving DecidableEq, Repr

def StatusEvent.phase : StatusEvent → Phase
  | .piBootStatus e =>
    match e.event_type with
    | .rebootStarted => .started
    | .rebootError => .error
  | .piCamStatus e =>
    match e.event_type with
    | .camStarted => .started
    | .camStartSuccess => .success
    | .camStopped => .success
    | .camError => .error
  | .piSoftwareUpdateStatus e =>
    match e.event_type with
    | .swupdateStarted => .started
    | .swupdateSuccess => .success
    | .swupdateError => .error

def StatusEvent.payload : StatusEvent → Option StatusPayload
  | .piBootStatus e => e.payload
  | .piCamStatus e => e.payload
  | .piSoftwareUpdateStatus e => e.payload

/-- Captured subprocess result (`async_process::Output`): exit code (None
when terminated by a signal), full stdout and stderr. `status.success()`
holds exactly when the exit code is 0. -/
structure CommandOutput where
  code : Option Int
  stdout : String
  stderr : String
  deriving DecidableEq, Repr

def CommandOutput.success (o : CommandOutput) : Bool := o.code == some 0

/-- The `{exit_code, stdout, stderr}` error payload, entries in the insertion
order of the source (src/nats/src/commands.rs:63-75). -/
def errorPayload (output : CommandOutput) : StatusPayload :=
  [("exit_code", .exitCode output.code), ("stdout", .str output.stdout),
   ("stderr", .str output.stderr)]

/-- Observable effects of one command-handler invocation, in program order:
successfully published status events and subprocess spawn-and-wait calls. -/
inductive CmdAction where
  | publish (subject : String) (event : StatusEvent)
  | spawn (program : String) (args : List String)
  deriving DecidableEq, Repr

/-- Nondeterministic inputs of one invocation: the outcome of the n-th
publish attempt, the spawned subprocess result (spawn error or captured
output), and the fresh UUID / timestamp taken when building the n-th status
event. -/
structure CmdEnv where
  publishOk : Nat → Bool
  proc : Except String CommandOutput
  uuid : Nat → String
  now : Nat → String

structure CmdRun where
  actions : List CmdAction
  result : Except String Unit

def build_boot_status_payload (cmd : PiBootCommandRequest)
    (event_type : PiBootStatusType) (payload : Option StatusPayload)
    (id created_dt : String) : String × StatusEvent :=
  ("pi." ++ toString cmd.pi ++ ".status.boot",
   .piBootStatus { payload := payload, event_type := event_type, pi := cmd.pi,
                   id := some id, created_dt := some created_dt })

def build_cam_status_payload (cmd : PiCamCommandRequest)
    (event_type : PiCamStatusType) (payload : Option StatusPayload)
    (id created_dt : String) : String × StatusEvent :=
  ("pi." ++ toString cmd.pi ++ ".status.cam",
   .piCamStatus { payload := payload, event_type := event_type, pi := cmd.pi,
                  id := some id, created_dt := some created_dt })

def build_swupdate_status_payload (cmd : PiSoftwareUpdateCommandRequest)
    (event_type : PiSoftwareUpdateStatusType) (payload : Option StatusPayload)
    (id created_dt : String) : String × StatusEvent :=
  ("pi." ++ toString cmd.pi ++ ".status.swupdate",
   .piSoftwareUpdateStatus { payload := payload, event_type := event_type,
                             pi := cmd.pi, version := cmd.version,
                             id := some id, created_dt := some created_dt })

/-- `handle_pi_boot_command` (src/nats/src/commands.rs:42-96). Reboot:
publish `RebootStarted`, spawn `reboot`; on exit 0 nothing further is
published (the next event arrives on boot), on failure publish `RebootError`
with the `{exit_code, stdout, stderr}` payload. Shutdown: spawn `shutdown`
with no status event at all. Any other command type only logs a warning. -/
def handle_pi_boot_command (cmd : PiBootCommandRequest) (env : CmdEnv) : CmdRun :=
  match cmd.event_type with
  | .reboot =>
    let (subj, ev) := build_boot_status_payload cmd .rebootStarted none
      (env.uuid 0) (env.now 0)
    if env.publishOk 0 then
      match env.proc with
      | .error e => { actions := [.publish subj ev, .spawn "reboot" []], result := .error e }
      | .ok output =>
        if output.success then
          { actions := [.publish subj ev, .spawn "reboot" []], result := .ok () }
        else
          let (subj2, ev2) := build_boot_status_payload cmd .rebootError
            (some (errorPayload output)) (env.uuid 1) (env.now 1)
          if env.publishOk 1 then
            { actions := [.publish subj ev, .spawn "reboot" [], .publish subj2 ev2],
              result := .ok () }
          else
            { actions := [.publish subj ev, .spawn "reboot" []],
              result := .error "publish failed" }
    else { actions := [], result := .error "publish failed" }
  | .shutdown =>
    match env.proc with
    | .error e => { actions := [.spawn "shutdown" []], result := .error e }
    | .ok _ => { actions := [.spawn "shutdown" []], result := .ok () }
  | .other => { actions := [], result := .ok () }

/-- `handle_pi_cam_command` (src/nats/src/commands.rs:123-223). CamStart:
publish `CamStarted`, spawn `systemctl restart printnanny-cam`, then publish
`CamStartSuccess` or `CamError`. CamStop: spawn `systemctl stop
printnanny-cam` with no prior event, then publish `CamStopped` or
`CamError`. -/
def handle_pi_cam_command (cmd : PiCamCommandRequest) (env : CmdEnv) : CmdRun :=
  match cmd.event_type with
  | .camStart =>
    let (subj, ev) := build_cam_status_payload cmd .camStarted none
      (env.uuid 0) (env.now 0)
    if env.publishOk 0 then
      match env.proc with
      | .error e =>
        { actions := [.publish subj ev, .spawn "systemctl" ["restart", "printnanny-cam"]],
          result := .error e }
      | .ok output =>
        if output.success then
          let (subj2, ev2) := build_cam_status_payload cmd .camStartSuccess none
            (env.uuid 1) (env.now 1)
          if env.publishOk 1 then
            { actions := [.publish subj ev, .spawn "systemctl" ["restart", "printnanny-cam"],
                          .publish subj2 ev2],
              result := .ok () }
          else
            { actions := [.publish subj ev, .spawn "systemctl" ["restart", "printnanny-cam"]],
              result := .error "publish failed" }
        else
          let (subj2, ev2) := build_cam_status_payload cmd .camError
            (some (errorPayload output)) (env.uuid 1) (env.now 1)
          if env.publishOk 1 then
            { actions := [.publish subj ev, .spawn "systemctl" ["restart", "printnanny-cam"],
                          .publish subj2 ev2],
              result := .ok () }
          else
            { actions := [.publish subj ev, .spawn "systemctl" ["restart", "printnanny-cam"]],
              result := .error "publish failed" }
    else { actions := [], result := .error "publish failed" }
  | .camStop =>
    match env.proc with
    | .error e =>
      { actions := [.spawn "systemctl" ["stop", "printnanny-cam"]], result := .error e }
    | .ok output =>
      if output.success then
        let (subj, ev) := build_cam_status_payload cmd .camStopped none
          (env.uuid 0) (env.now 0)
        if env.publishOk 0 then
          { actions := [.spawn "systemctl" ["stop", "printnanny-cam"], .publish subj ev],
            result := .ok () }
        else
          { actions := [.spawn "systemctl" ["stop", "printnanny-cam"]],
            result := .error "publish failed" }
      else
        let (subj, ev) := build_cam_status_payload cmd .camError
          (some (errorPayload output)) (env.uuid 0) (env.now 0)
        if env.publishOk 0 then
          { actions := [.spawn "systemctl" ["stop", "printnanny-cam"], .publish subj ev],
            result := .ok () }
        else
          { actions := [.spawn "systemctl" ["stop", "printnanny-cam"]],
            result := .error "publish failed" }

/-- `handle_pi_swupdate_command` (src/nats/src/commands.rs:251-319).
Swupdate: publish `SwupdateStarted`, run the update-apply routine
(`Swupdate::run`, a process spawn in the services crate outside src/,
modelled as one spawned process whose output is captured in full), then
publish `SwupdateSuccess` or `SwupdateError`. SwupdateRollback only logs a
warning. -/
def handle_pi_swupdate_command (cmd : PiSoftwareUpdateCommandRequest)
    (env : CmdEnv) : CmdRun :=
  match cmd.event_type with
  | .swupdate =>
    let (subj, ev) := build_swupdate_status_payload cmd .swupdateStarted none
      (env.uuid 0) (env.now 0)
    if env.publishOk 0 then
      match env.proc with
      | .error e =>
        { actions := [.publish subj ev, .spawn "swupdate" []], result := .error e }
      | .ok output =>
        if output.success then
          let (subj2, ev2) := build_swupdate_status_payload cmd .swupdateSuccess none
            (env.uuid 1) (env.now 1)
          if env.publishOk 1 then
            { actions := [.publish subj ev, .spawn "swupdate" [], .publish subj2 ev2],
              result := .ok () }
          else
            { actions := [.publish subj ev, .spawn "swupdate" []],
              result := .error "publish failed" }
        else
          let (subj2, ev2) := build_swupdate_status_payload cmd .swupdateError
            (some (errorPayload output)) (env.uuid 1) (env.now 1)
          if env.publishOk 1 then
            { actions := [.publish subj ev, .spawn "swupdate" [], .publish subj2 ev2],
              result := .ok () }
          else
            { actions := [.publish subj ev, .spawn "swupdate" []],
              result := .error "publish failed" }
    else { actions := [], result := .error "publish failed" }
  | .swupdateRollback => { actions := [], result := .ok () }

/-- A domain command invocation across the three command families
(`handle_incoming`, src/nats/src/commands.rs:321-339). -/
inductive DomainCommand where
  | boot (cmd : PiBootCommandRequest)
  | cam (cmd : PiCamCommandRequest)
  | swupdate (cmd : PiSoftwareUpdateCommandRequest)
  deriving DecidableEq, Repr

def runDomainCommand : DomainCommand → CmdEnv → CmdRun
  | .boot cmd, env => handle_pi_boot_command cmd env
  | .cam cmd, env => handle_pi_cam_command cmd env
  | .swupdate cmd, env => handle_pi_swupdate_command cmd env

/-- The (phase, payload) view of the published-event sequence of a run. -/
def phasePayloadTrace (r : CmdRun) : List (Phase × Option StatusPayload) :=
  r.actions.filterMap (fun a =>
    match a with
    | .publish _ ev => some (ev.phase, ev.payload)
    | .spawn _ _ => none)

/-- Whether every spawn in the action list is preceded by a successfully
published Started-phase event. -/
def startedPrecedesSpawn (seen : Bool) : List CmdAction → Bool
  | [] => true
  | .spawn _ _ :: rest => seen && startedPrecedesSpawn seen rest
  | .publish _ ev :: rest =>
    startedPrecedesSpawn (seen || (ev.phase == Phase.started)) rest

def spawnCount (acts : List CmdAction) : Nat :=
  (acts.filter (fun a => match a with | .spawn _ _ => true | _ => false)).length

end Cmds

/-! ## Claim statements and concrete fixtures -/

/-- The canonical pattern computed for an inbound message
(src/nats/src/subscriber.rs:157-158). -/
def dispatchPattern (cfg : Dispatcher.SubscriberCfg) (msg : Dispatcher.NatsMessage) : String :=
  replace_subject_pattern msg.subject cfg.hostname "{pi_id}"

/-- A concrete collaborator environment: start/restart/enable/disable and the
settings reads succeed, stop_unit fails. -/
def sampleEnv : Msg.HandlerEnv where
  startUnit := fun _ => .ok "/org/freedesktop/systemd1/job/1"
  stopUnit := fun _ => .error "unit not found"
  restartUnit := fun _ => .ok "/org/freedesktop/systemd1/job/2"
  enableUnitFiles := fun _ => .ok [("symlink", "/etc/x", "/lib/x")]
  disableUnitFiles := fun _ => .ok [("unlink", "/etc/x", "")]
  settingsNew := .ok ()
  octoprintGitParentCommit := .ok "abc123"
  octoprintReadSettings := .ok "webcam:"

/-- A command environment where every publish succeeds and the subprocess
produces the given output. -/
def happyEnv (output : Cmds.CommandOutput) : Cmds.CmdEnv where
  publishOk := fun _ => true
  proc := .ok output
  uuid := fun _ => "00000000-0000-0000-0000-000000000000"
  now := fun _ => "2023-01-01 00:00:00 UTC"

/-- A command environment where every publish fails and the subprocess
exits 0. -/
def failPubEnv : Cmds.CmdEnv where
  publishOk := fun _ => false
  proc := .ok { code := some 0, stdout := "", stderr := "" }
  uuid := fun _ => "00000000-0000-0000-0000-000000000000"
  now := fun _ => "2023-01-01 00:00:00 UTC"

/-- Claim C1 as stated: for every domain command invocation whose subprocess
exits 0 (all publishes succeeding), exactly the two events Started then
Success (empty payload) are published, and for a nonzero exit, Started then
Error with the `{exit_code, stdout, stderr}` payload. -/
def claimC1Stated : Prop :=
  ∀ (c : Cmds.DomainCommand) (env : Cmds.CmdEnv) (output : Cmds.CommandOutput),
    env.proc = .ok output → (∀ n, env.publishOk n = true) →
    Cmds.phasePayloadTrace (Cmds.runDomainCommand c env) =
      if output.success then [(.started, none), (.success, none)]
      else [(.started, none), (.error, some (Cmds.errorPayload output))]

/-- Claim C7 as stated: for every domain command invocation, a Started event
precedes the subprocess spawn, and a failed Started publish makes the handler
error out without spawning. -/
def claimC7Stated : Prop :=
  ∀ (c : Cmds.DomainCommand) (env : Cmds.CmdEnv),
    Cmds.startedPrecedesSpawn false (Cmds.runDomainCommand c env).actions = true ∧
    (env.publishOk 0 = false →
      (Cmds.runDomainCommand c env).result ≠ .ok () ∧
      Cmds.spawnCount (Cmds.runDomainCommand c env).actions = 0)

/-- Claim C4 as stated: every successfully decoded message has its handler
invoked; with a reply address the handler's outcome is published there, and
without one the outcome is discarded after logging (so the handler still
runs). -/
def claimC4Stated (cfg : Dispatcher.SubscriberCfg) (env : Msg.HandlerEnv)
    (pub : Bool) : Prop :=
  ∀ (msg : Dispatcher.NatsMessage) (req : Msg.NatsRequest),
    Msg.deserialize_payload (dispatchPattern cfg msg) msg.payload = some req →
    (∀ inbox payload, msg.reply = some inbox →
      Dispatcher.handle_request env req (dispatchPattern cfg msg) = some payload →
      pub = true →
      (Dispatcher.DispatchAction.published inbox payload) ∈
        Dispatcher.processMessage cfg env pub msg) ∧
    (msg.reply = none →
      (Dispatcher.DispatchAction.handlerInvoked req) ∈
        Dispatcher.processMessage cfg env pub msg)

/-- A well-formed StopUnit message carrying no reply address, whose subject
contains no segment equal to the device id "myhost" and therefore
canonicalizes to itself (the systemd patterns carry no `pi_id` segment). -/
def stopMsgNoReply : Dispatcher.NatsMessage where
  subject := "pi.dbus.org.freedesktop.systemd1.Manager.StopUnit"
  reply := none
  payload := (Msg.NatsRequest.SystemdManagerStopUnitRequest ⟨"octoprint.service"⟩).toJson

/-- A message whose subject has no segment equal to the device id "myhost"
and whose payload tag does not match the unchanged subject: it cannot be
routed. -/
def unroutedMsg : Dispatcher.NatsMessage where
  subject := "pi.otherpi.status.boot"
  reply := some "req.inbox.1"
  payload := (Msg.NatsRequest.SystemdManagerStopUnitRequest ⟨"octoprint.service"⟩).toJson

/-! ## Supporting lemmas -/

theorem splitSegs_ne_nil (l : List Char) : splitSegs l ≠ [] := by
  cases l with
  | nil => simp [splitSegs]
  | cons c rest =>
    by_cases h : c = '.'
    · simp [splitSegs, h]
    · simp only [splitSegs, if_neg h]
      cases splitSegs rest <;> simp

theorem joinSegs_splitSegs (l : List Char) : joinSegs (splitSegs l) = l := by
  induction l with
  | nil => rfl
  | cons c rest ih =>
    by_cases h : c = '.'
    · subst h
      simp only [splitSegs, if_pos rfl]
      obtain ⟨s, ss, hss⟩ := List.exists_cons_of_ne_nil (splitSegs_ne_nil rest)
      rw [hss]
      rw [hss] at ih
      simpa [joinSegs] using ih
    · simp only [splitSegs, if_neg h]
      obtain ⟨s, ss, hss⟩ := List.exists_cons_of_ne_nil (splitSegs_ne_nil rest)
      rw [hss]
      rw [hss] at ih
      cases ss with
      | nil => simpa [joinSegs] using ih
      | cons t ts => simpa [joinSegs] using ih

theorem replace_subject_pattern_no_match (subject deviceId placeholder : String)
    (h : ∀ seg ∈ splitSegs subject.toList,
      lowerChars seg ≠ lowerChars deviceId.toList) :
    replace_subject_pattern subject deviceId placeholder = subject := by
  unfold replace_subject_pattern
  have hmap : ∀ (l : List (List Char)),
      (∀ seg ∈ l, lowerChars seg ≠ lowerChars deviceId.toList) →
      l.map (fun seg =>
        if lowerChars seg = lowerChars deviceId.toList then placeholder.toList else seg) = l := by
    intro l
    induction l with
    | nil => intro _; rfl
    | cons s ss ih =>
      intro hl
      simp only [List.map_cons, if_neg (hl s (by simp))]
      rw [ih (fun seg hseg => hl seg (by simp [hseg]))]
  rw [hmap _ h, joinSegs_splitSegs]
  rfl

theorem parseStrList_map_str (xs : List String) :
    parseStrList (xs.map Json.str) = some xs := by
  induction xs with
  | nil => rfl
  | cons x xs ih => simp [parseStrList, Json.asStr, ih]

theorem Msg.deserialize_serialize_v1 (r : Msg.NatsRequest) :
    Msg.deserialize_payload r.subjectPattern r.toJson = some r := by
  cases r with
  | SystemdManagerDisableUnitRequest q =>
    cases q
    simp [Msg.deserialize_payload, Msg.NatsRequest.toJson, Msg.NatsRequest.subjectPattern,
      Json.lookup, lookupField, Msg.decodeByTag, Msg.parseFiles, Json.asStrList, Msg.strArr,
      parseStrList_map_str]
  | SystemdManagerEnableUnitRequest q =>
    cases q
    simp [Msg.deserialize_payload, Msg.NatsRequest.toJson, Msg.NatsRequest.subjectPattern,
      Json.lookup, lookupField, Msg.decodeByTag, Msg.parseFiles, Json.asStrList, Msg.strArr,
      parseStrList_map_str]
  | GstPipelineSettingsLoadRequest q =>
    cases q with
    | mk f => cases f <;> rfl
  | GstPipelineSettingsApplyRequest q =>
    cases q with
    | mk pc f => cases f <;> rfl
  | KlipperSettingsLoadRequest q =>
    cases q with
    | mk f => cases f <;> rfl
  | KlipperSettingsApplyRequest q =>
    cases q with
    | mk pc f => cases f <;> rfl
  | MoonrakerSettingsLoadRequest q =>
    cases q with
    | mk f => cases f <;> rfl
  | MoonrakerSettingsApplyRequest q =>
    cases q with
    | mk pc f => cases f <;> rfl
  | OctoPrintSettingsLoadRequest q =>
    cases q with
    | mk f => cases f <;> rfl
  | OctoPrintSettingsApplyRequest q =>
    cases q with
    | mk d pc f => cases f <;> rfl
  | ConnectPrintNannyCloudRequest q => cases q; rfl
  | SystemdManagerReloadUnitRequest q => cases q; rfl
  | SystemdManagerRestartUnitRequest q => cases q; rfl
  | SystemdManagerStartUnitRequest q => cases q; rfl
  | SystemdManagerStopUnitRequest q => cases q; rfl
  | GstPipelineSettingsRevertRequest q => cases q; rfl
  | KlipperSettingsRevertRequest q => cases q; rfl
  | MoonrakerSettingsRevertRequest q => cases q; rfl
  | OctoPrintSettingsRevertRequest q => cases q; rfl

theorem MsgV2.deserialize_serialize_v2 (r : MsgV2.NatsRequest) :
    MsgV2.deserialize_payload r.subjectPattern r.toJson = some r := by
  cases r with
  | SystemdManagerStartUnitRequest q => cases q; rfl

/-! ## Claims -/

/-- C6: `canonicalize(subject, device_id)` splits the subject on '.',
replaces the segment equal to the device id (matched case-insensitively
against a lower-cased device identifier) with `{pi_id}`, and rejoins; in
particular `canonicalize("pi.myhost.status.boot", "myhost") =
"pi.{pi_id}.status.boot"`; if no segment equals the device id, the original
subject is returned unchanged. -/
theorem C6_subject_canonicalization :
    replace_subject_pattern "pi.myhost.status.boot" "myhost" "{pi_id}" =
      "pi.{pi_id}.status.boot" ∧
    ∀ subject deviceId placeholder : String,
      (∀ seg ∈ splitSegs subject.toList, lowerChars seg ≠ lowerChars deviceId.toList) →
      replace_subject_pattern subject deviceId placeholder = subject := by
  constructor
  · rfl
  · exact replace_subject_pattern_no_match

/-- Witness for C6: a subject with no segment equal to the device id comes
back unchanged. -/
theorem C6_subject_canonicalization_witness :
    replace_subject_pattern "pi.otherpi.status.boot" "myhost" "{pi_id}" =
      "pi.otherpi.status.boot" :=
  C6_subject_canonicalization.2 "pi.otherpi.status.boot" "myhost" "{pi_id}" (by decide)

/-- C3: every request variant of both protocol unions round-trips:
deserializing the serialization of R under R's canonical pattern yields R
again, with no field loss. -/
theorem C3_request_roundtrip :
    (∀ r : Msg.NatsRequest, Msg.deserialize_payload r.subjectPattern r.toJson = some r) ∧
    (∀ r : MsgV2.NatsRequest, MsgV2.deserialize_payload r.subjectPattern r.toJson = some r) :=
  ⟨Msg.deserialize_serialize_v1, MsgV2.deserialize_serialize_v2⟩

/-- C9: in the bounded-concurrency model of
`for_each_concurrent(self.workers, ...)`, no reachable dispatcher state runs
more than `workers` handler invocations (further messages stay queued), and
the default worker count is 8. -/
theorem C9_worker_bound :
    (∀ (workers : Nat) (s : Dispatcher.DispatcherState),
      Dispatcher.DispatcherReachable workers s → s.running ≤ workers) ∧
    Dispatcher.parse_workers none = 8 := by
  constructor
  · intro w s h
    induction h with
    | init => exact Nat.zero_le w
    | step _ hs ih =>
      cases hs with
      | start m rest r hr => exact hr
      | finish p r => exact Nat.le_of_succ_le (Nat.succ_le_of_lt (Nat.lt_of_succ_le ih))
      | arrive p r m => exact ih
  · decide

/-- Witness for C9 at the default worker count and the initial state. -/
theorem C9_worker_bound_witness :
    ({ pending := [], running := 0 } : Dispatcher.DispatcherState).running ≤ 8 :=
  C9_worker_bound.1 8 _ Dispatcher.DispatcherReachable.init

/-- C2: for every request with a defined (non-stubbed) handler, every
successful handling returns a reply that echoes the originating request. -/
theorem C2_reply_echoes :
    ∀ (env : Msg.HandlerEnv) (req : Msg.NatsRequest) (rep : Msg.NatsReply),
      req.handle env = .ok rep → Msg.replyEchoes req rep := by
  intro env req rep h
  cases req with
  | SystemdManagerDisableUnitRequest q =>
    cases hq : env.disableUnitFiles q.files <;>
      simp [Msg.NatsRequest.handle, Msg.SystemdManagerDisableUnitRequest.handle, hq] at h
    subst h
    rfl
  | SystemdManagerEnableUnitRequest q =>
    cases hq : env.enableUnitFiles q.files <;>
      simp [Msg.NatsRequest.handle, Msg.SystemdManagerEnableUnitRequest.handle, hq] at h
    subst h
    rfl
  | SystemdManagerReloadUnitRequest q =>
    cases hq : env.restartUnit q.name <;>
      simp [Msg.NatsRequest.handle, Msg.SystemdManagerReloadUnitRequest.handle, hq] at h
    subst h
    rfl
  | SystemdManagerRestartUnitRequest q =>
    cases hq : env.restartUnit q.name <;>
      simp [Msg.NatsRequest.handle, Msg.SystemdManagerRestartUnitRequest.handle, hq] at h
    subst h
    rfl
  | SystemdManagerStartUnitRequest q =>
    cases hq : env.startUnit q.name <;>
      simp [Msg.NatsRequest.handle, Msg.SystemdManagerStartUnitRequest.handle, hq] at h
    subst h
    rfl
  | SystemdManagerStopUnitRequest q =>
    cases hq : env.stopUnit q.name <;>
      simp [Msg.NatsRequest.handle, Msg.SystemdManagerStopUnitRequest.handle, hq] at h
    subst h
    rfl
  | OctoPrintSettingsLoadRequest q =>
    cases h1 : env.settingsNew <;>
      simp [Msg.NatsRequest.handle, Msg.OctoPrintSettingsLoadRequest.handle, h1] at h
    cases h2 : env.octoprintGitParentCommit <;> simp [h2] at h
    cases h3 : env.octoprintReadSettings <;> simp [h3] at h
    subst h
    rfl
  | OctoPrintSettingsApplyRequest q =>
    simp [Msg.NatsRequest.handle, Msg.OctoPrintSettingsApplyRequest.handle] at h
  | ConnectPrintNannyCloudRequest q => simp [Msg.NatsRequest.handle] at h
  | GstPipelineSettingsLoadRequest q => simp [Msg.NatsRequest.handle] at h
  | GstPipelineSettingsApplyRequest q => simp [Msg.NatsRequest.handle] at h
  | GstPipelineSettingsRevertRequest q => simp [Msg.NatsRequest.handle] at h
  | KlipperSettingsLoadRequest q => simp [Msg.NatsRequest.handle] at h
  | KlipperSettingsApplyRequest q => simp [Msg.NatsRequest.handle] at h
  | KlipperSettingsRevertRequest q => simp [Msg.NatsRequest.handle] at h
  | MoonrakerSettingsLoadRequest q => simp [Msg.NatsRequest.handle] at h
  | MoonrakerSettingsApplyRequest q => simp [Msg.NatsRequest.handle] at h
  | MoonrakerSettingsRevertRequest q => simp [Msg.NatsRequest.handle] at h
  | OctoPrintSettingsRevertRequest q => simp [Msg.NatsRequest.handle] at h

/-- Witness for C2: a concrete StartUnit request handled against `sampleEnv`
yields a reply echoing the request. -/
theorem C2_reply_echoes_witness :
    Msg.replyEchoes
      (.SystemdManagerStartUnitRequest ⟨"octoprint.service"⟩)
      (.SystemdManagerStartUnitReply
        ⟨⟨"octoprint.service"⟩, "/org/freedesktop/systemd1/job/1"⟩) :=
  C2_reply_echoes sampleEnv
    (.SystemdManagerStartUnitRequest ⟨"octoprint.service"⟩)
    (.SystemdManagerStartUnitReply
      ⟨⟨"octoprint.service"⟩, "/org/freedesktop/systemd1/job/1"⟩) rfl

/-- C10: handling panics on a `todo!()` stub exactly for the connect-cloud
variant, all gst_pipeline, klipper and moonraker settings variants, and the
OctoPrint apply/revert variants; only the six SystemdManager unit variants
and OctoPrintSettingsLoadRequest can complete without panicking. -/
theorem C10_stubbed_variants :
    ∀ (env : Msg.HandlerEnv) (req : Msg.NatsRequest),
      (req.handle env).isStub = req.isStubbed := by
  intro env req
  cases req with
  | SystemdManagerDisableUnitRequest q =>
    cases hq : env.disableUnitFiles q.files <;>
      simp [Msg.NatsRequest.handle, Msg.SystemdManagerDisableUnitRequest.handle, hq,
        Msg.HOut.isStub, Msg.NatsRequest.isStubbed]
  | SystemdManagerEnableUnitRequest q =>
    cases hq : env.enableUnitFiles q.files <;>
      simp [Msg.NatsRequest.handle, Msg.SystemdManagerEnableUnitRequest.handle, hq,
        Msg.HOut.isStub, Msg.NatsRequest.isStubbed]
  | SystemdManagerReloadUnitRequest q =>
    cases hq : env.restartUnit q.name <;>
      simp [Msg.NatsRequest.handle, Msg.SystemdManagerReloadUnitRequest.handle, hq,
        Msg.HOut.isStub, Msg.NatsRequest.isStubbed]
  | SystemdManagerRestartUnitRequest q =>
    cases hq : env.restartUnit q.name <;>
      simp [Msg.NatsRequest.handle, Msg.SystemdManagerRestartUnitRequest.handle, hq,
        Msg.HOut.isStub, Msg.NatsRequest.isStubbed]
  | SystemdManagerStartUnitRequest q =>
    cases hq : env.startUnit q.name <;>
      simp [Msg.NatsRequest.handle, Msg.SystemdManagerStartUnitRequest.handle, hq,
        Msg.HOut.isStub, Msg.NatsRequest.isStubbed]
  | SystemdManagerStopUnitRequest q =>
    cases hq : env.stopUnit q.name <;>
      simp [Msg.NatsRequest.handle, Msg.SystemdManagerStopUnitRequest.handle, hq,
        Msg.HOut.isStub, Msg.NatsRequest.isStubbed]
  | OctoPrintSettingsLoadRequest q =>
    cases h1 : env.settingsNew with
    | error e =>
      simp [Msg.NatsRequest.handle, Msg.OctoPrintSettingsLoadRequest.handle, h1,
        Msg.HOut.isStub, Msg.NatsRequest.isStubbed]
    | ok u =>
      cases h2 : env.octoprintGitParentCommit with
      | error e =>
        simp [Msg.NatsRequest.handle, Msg.OctoPrintSettingsLoadRequest.handle, h1, h2,
          Msg.HOut.isStub, Msg.NatsRequest.isStubbed]
      | ok pc =>
        cases h3 : env.octoprintReadSettings <;>
          simp [Msg.NatsRequest.handle, Msg.OctoPrintSettingsLoadRequest.handle, h1, h2, h3,
            Msg.HOut.isStub, Msg.NatsRequest.isStubbed]
  | OctoPrintSettingsApplyRequest q =>
    simp [Msg.NatsRequest.handle, Msg.OctoPrintSettingsApplyRequest.handle,
      Msg.HOut.isStub, Msg.NatsRequest.isStubbed]
  | ConnectPrintNannyCloudRequest q =>
    simp [Msg.NatsRequest.handle, Msg.HOut.isStub, Msg.NatsRequest.isStubbed]
  | GstPipelineSettingsLoadRequest q =>
    simp [Msg.NatsRequest.handle, Msg.HOut.isStub, Msg.NatsRequest.isStubbed]
  | GstPipelineSettingsApplyRequest q =>
    simp [Msg.NatsRequest.handle, Msg.HOut.isStub, Msg.NatsRequest.isStubbed]
  | GstPipelineSettingsRevertRequest q =>
    simp [Msg.NatsRequest.handle, Msg.HOut.isStub, Msg.NatsRequest.isStubbed]
  | KlipperSettingsLoadRequest q =>
    simp [Msg.NatsRequest.handle, Msg.HOut.isStub, Msg.NatsRequest.isStubbed]
  | KlipperSettingsApplyRequest q =>
    simp [Msg.NatsRequest.handle, Msg.HOut.isStub, Msg.NatsRequest.isStubbed]
  | KlipperSettingsRevertRequest q =>
    simp [Msg.NatsRequest.handle, Msg.HOut.isStub, Msg.NatsRequest.isStubbed]
  | MoonrakerSettingsLoadRequest q =>
    simp [Msg.NatsRequest.handle, Msg.HOut.isStub, Msg.NatsRequest.isStubbed]
  | MoonrakerSettingsApplyRequest q =>
    simp [Msg.NatsRequest.handle, Msg.HOut.isStub, Msg.NatsRequest.isStubbed]
  | MoonrakerSettingsRevertRequest q =>
    simp [Msg.NatsRequest.handle, Msg.HOut.isStub, Msg.NatsRequest.isStubbed]
  | OctoPrintSettingsRevertRequest q =>
    simp [Msg.NatsRequest.handle, Msg.HOut.isStub, Msg.NatsRequest.isStubbed]

/-- C8: whenever handling a decoded request fails, the bytes substituted for
the typed reply serialize an ErrorEnvelope carrying exactly the original
request, the error string, and the canonical subject pattern. -/
theorem C8_error_envelope :
    ∀ (env : Msg.HandlerEnv) (req : Msg.NatsRequest) (subject_pattern e : String),
      req.handle env = .err e →
      Dispatcher.handle_request env req subject_pattern =
        some (Dispatcher.encodeRequestErrorMsg
          { error := e, subject_pattern := subject_pattern, request := req }) := by
  intro env req subject_pattern e h
  simp [Dispatcher.handle_request, h]

/-- Witness for C8: `sampleEnv` fails every stop_unit call, so a StopUnit
request produces the serialized error envelope. -/
theorem C8_error_envelope_witness :
    Dispatcher.handle_request sampleEnv
      (.SystemdManagerStopUnitRequest ⟨"octoprint.service"⟩)
      "pi.dbus.org.freedesktop.systemd1.Manager.StopUnit" =
      some (Dispatcher.encodeRequestErrorMsg
        { error := "unit not found",
          subject_pattern := "pi.dbus.org.freedesktop.systemd1.Manager.StopUnit",
          request := .SystemdManagerStopUnitRequest ⟨"octoprint.service"⟩ }) :=
  C8_error_envelope sampleEnv
    (.SystemdManagerStopUnitRequest ⟨"octoprint.service"⟩)
    "pi.dbus.org.freedesktop.systemd1.Manager.StopUnit" "unit not found" rfl

/-- C5: every inbound message that fails to decode (unknown canonical
pattern or malformed payload) is logged and dropped — no handler invocation,
no reply publish, no retry; in particular a message whose subject has no
segment matching the device id is unrouted: its subject canonicalizes to
itself, its tagged payload no longer matches, and it is dropped the same
way. -/
theorem C5_decode_failure_dropped :
    (∀ (cfg : Dispatcher.SubscriberCfg) (env : Msg.HandlerEnv) (pub : Bool)
      (msg : Dispatcher.NatsMessage),
      Msg.deserialize_payload (dispatchPattern cfg msg) msg.payload = none →
      Dispatcher.processMessage cfg env pub msg = [.decodeErrorLogged]) ∧
    (∀ (env : Msg.HandlerEnv) (pub : Bool),
      Dispatcher.processMessage ⟨"myhost"⟩ env pub unroutedMsg = [.decodeErrorLogged]) := by
  constructor
  · intro cfg env pub msg h
    simp only [Dispatcher.processMessage]
    rw [show replace_subject_pattern msg.subject cfg.hostname "{pi_id}" =
      dispatchPattern cfg msg from rfl, h]
  · intro env pub
    rfl

/-- Witness for C5: a malformed (null) payload is dropped with only the
decode-error log. -/
theorem C5_decode_failure_dropped_witness :
    Dispatcher.processMessage ⟨"myhost"⟩ sampleEnv true
      { subject := "pi.myhost.status.boot", reply := some "inbox.1", payload := .null } =
      [.decodeErrorLogged] :=
  C5_decode_failure_dropped.1 ⟨"myhost"⟩ sampleEnv true
    { subject := "pi.myhost.status.boot", reply := some "inbox.1", payload := .null } rfl

/-- C4 counterexample: the claim is false as stated. At a concrete decodable
StopUnit message carrying no reply address, the dispatcher invokes no handler
at all — the "outcome discarded after logging" branch never runs a handler. -/
theorem C4_counterexample :
    ¬ claimC4Stated ⟨"myhost"⟩ sampleEnv true := by
  intro h
  have hdec : Msg.deserialize_payload (dispatchPattern ⟨"myhost"⟩ stopMsgNoReply)
      stopMsgNoReply.payload =
      some (.SystemdManagerStopUnitRequest ⟨"octoprint.service"⟩) := by decide
  have hmem := (h stopMsgNoReply _ hdec).2 rfl
  have hempty : Dispatcher.processMessage ⟨"myhost"⟩ sampleEnv true stopMsgNoReply =
      ([] : List Dispatcher.DispatchAction) := by
    simp only [Dispatcher.processMessage]
    rw [show replace_subject_pattern stopMsgNoReply.subject "myhost" "{pi_id}" =
      dispatchPattern ⟨"myhost"⟩ stopMsgNoReply from rfl, hdec]
    rfl
  rw [hempty] at hmem
  exact List.not_mem_nil _ hmem

/-- C4 amended: for every successfully decoded inbound message carrying a
reply address, the handler runs and its outcome (typed Reply or
ErrorEnvelope) is serialized and published there when the publish succeeds
(a failed publish is only logged, and a panicking stub produces no bytes);
when no reply address is present, the handler is never invoked and the
message is dropped after the received-message log. -/
theorem C4_amended :
    ∀ (cfg : Dispatcher.SubscriberCfg) (env : Msg.HandlerEnv) (pub : Bool)
      (msg : Dispatcher.NatsMessage) (req : Msg.NatsRequest),
      Msg.deserialize_payload (dispatchPattern cfg msg) msg.payload = some req →
      Dispatcher.processMessage cfg env pub msg =
        match msg.reply with
        | some inbox =>
          .handlerInvoked req ::
            (match Dispatcher.handle_request env req (dispatchPattern cfg msg) with
             | some payload =>
               if pub then [.published inbox payload] else [.publishErrorLogged]
             | none => [])
        | none => [] := by
  intro cfg env pub msg req h
  simp only [Dispatcher.processMessage]
  rw [show replace_subject_pattern msg.subject cfg.hostname "{pi_id}" =
    dispatchPattern cfg msg from rfl, h]

/-- Witness for C4 amended: the decodable no-reply StopUnit message yields no
dispatch action beyond the log. -/
theorem C4_amended_witness :
    Dispatcher.processMessage ⟨"myhost"⟩ sampleEnv true stopMsgNoReply =
      ([] : List Dispatcher.DispatchAction) :=
  C4_amended ⟨"myhost"⟩ sampleEnv true stopMsgNoReply
    (.SystemdManagerStopUnitRequest ⟨"octoprint.service"⟩) (by decide)

/-- C1 counterexample: the claim is false as stated. A boot Reboot command
whose subprocess exits 0 publishes exactly one event — `RebootStarted` — and
no Success event (the next event is only published after the reboot). -/
theorem C1_counterexample : ¬ claimC1Stated := by
  intro h
  have hx := h (.boot ⟨1, .reboot⟩) (happyEnv ⟨some 0, "", ""⟩) ⟨some 0, "", ""⟩
    rfl (fun _ => rfl)
  exact absurd hx (by decide)

/-- C1 amended: with all publishes succeeding and the subprocess captured,
camera CamStart and software-update Swupdate follow the claimed lifecycle
(exit 0: Started then Success with empty payload; nonzero: Started then
Error with the `{exit_code, stdout, stderr}` payload); boot Reboot publishes
only Started on exit 0 (its success event arrives on the next boot) and
Started then Error on failure; boot Shutdown publishes no event, camera
CamStop publishes only the terminal event without a Started, and
SwupdateRollback publishes nothing. -/
theorem C1_amended :
    ∀ (env : Cmds.CmdEnv) (output : Cmds.CommandOutput) (p : Int) (v : String),
      env.proc = .ok output → (∀ n, env.publishOk n = true) →
      (Cmds.phasePayloadTrace (Cmds.runDomainCommand (.cam ⟨p, .camStart⟩) env) =
        if output.success then [(.started, none), (.success, none)]
        else [(.started, none), (.error, some (Cmds.errorPayload output))]) ∧
      (Cmds.phasePayloadTrace (Cmds.runDomainCommand (.swupdate ⟨p, v, .swupdate⟩) env) =
        if output.success then [(.started, none), (.success, none)]
        else [(.started, none), (.error, some (Cmds.errorPayload output))]) ∧
      (Cmds.phasePayloadTrace (Cmds.runDomainCommand (.boot ⟨p, .reboot⟩) env) =
        if output.success then [(.started, none)]
        else [(.started, none), (.error, some (Cmds.errorPayload output))]) ∧
      (Cmds.phasePayloadTrace (Cmds.runDomainCommand (.boot ⟨p, .shutdown⟩) env) = []) ∧
      (Cmds.phasePayloadTrace (Cmds.runDomainCommand (.cam ⟨p, .camStop⟩) env) =
        if output.success then [(.success, none)]
        else [(.error, some (Cmds.errorPayload output))]) ∧
      (Cmds.phasePayloadTrace
        (Cmds.runDomainCommand (.swupdate ⟨p, v, .swupdateRollback⟩) env) = []) := by
  intro env output p v hproc hpub
  by_cases hs : output.success <;>
    refine ⟨?_, ?_, ?_, ?_, ?_, ?_⟩ <;>
    simp [Cmds.runDomainCommand, Cmds.handle_pi_boot_command, Cmds.handle_pi_cam_command,
      Cmds.handle_pi_swupdate_command, hproc, hpub 0, hpub 1, hs,
      Cmds.build_boot_status_payload, Cmds.build_cam_status_payload,
      Cmds.build_swupdate_status_payload, Cmds.phasePayloadTrace,
      Cmds.StatusEvent.phase, Cmds.StatusEvent.payload]

/-- Witness for C1 amended at a concrete exit-0 output and all-publishes-ok
environment. -/
theorem C1_amended_witness :
    Cmds.phasePayloadTrace
      (Cmds.runDomainCommand (.cam ⟨1, .camStart⟩)
        (happyEnv ⟨some 0, "", ""⟩)) =
      if (⟨some 0, "", ""⟩ : Cmds.CommandOutput).success
      then [(.started, none), (.success, none)]
      else [(.started, none), (.error, some (Cmds.errorPayload ⟨some 0, "", ""⟩))] :=
  (C1_amended (happyEnv ⟨some 0, "", ""⟩) ⟨some 0, "", ""⟩ 1 "0.1.0"
    rfl (fun _ => rfl)).1

/-- C7 counterexample: the claim is false as stated. A boot Shutdown command
spawns the `shutdown` subprocess without any prior Started event (and even
with publishing disabled the spawn still happens and the handler returns
Ok). -/
theorem C7_counterexample : ¬ claimC7Stated := by
  intro h
  have hx := (h (.boot ⟨1, .shutdown⟩) failPubEnv).1
  exact absurd hx (by decide)

/-- C7 amended: for boot Reboot, camera CamStart and software-update
Swupdate, a successfully published Started event precedes every subprocess
spawn, and a failed Started publish aborts the handler with an error before
anything is spawned or published; boot Shutdown spawns with no prior status
event, camera CamStop spawns first and only then publishes its terminal
event, and the wildcard boot arm and SwupdateRollback spawn nothing. -/
theorem C7_amended :
    ∀ (env : Cmds.CmdEnv) (p : Int) (v : String),
      (Cmds.startedPrecedesSpawn false
          (Cmds.runDomainCommand (.boot ⟨p, .reboot⟩) env).actions = true ∧
        (env.publishOk 0 = false →
          (Cmds.runDomainCommand (.boot ⟨p, .reboot⟩) env).actions = [] ∧
          (Cmds.runDomainCommand (.boot ⟨p, .reboot⟩) env).result =
            .error "publish failed")) ∧
      (Cmds.startedPrecedesSpawn false
          (Cmds.runDomainCommand (.cam ⟨p, .camStart⟩) env).actions = true ∧
        (env.publishOk 0 = false →
          (Cmds.runDomainCommand (.cam ⟨p, .camStart⟩) env).actions = [] ∧
          (Cmds.runDomainCommand (.cam ⟨p, .camStart⟩) env).result =
            .error "publish failed")) ∧
      (Cmds.startedPrecedesSpawn false
          (Cmds.runDomainCommand (.swupdate ⟨p, v, .swupdate⟩) env).actions = true ∧
        (env.publishOk 0 = false →
          (Cmds.runDomainCommand (.swupdate ⟨p, v, .swupdate⟩) env).actions = [] ∧
          (Cmds.runDomainCommand (.swupdate ⟨p, v, .swupdate⟩) env).result =
            .error "publish failed")) ∧
      ((Cmds.runDomainCommand (.boot ⟨p, .shutdown⟩) env).actions =
        [.spawn "shutdown" []]) ∧
      ((Cmds.runDomainCommand (.cam ⟨p, .camStop⟩) env).actions.head? =
        some (.spawn "systemctl" ["stop", "printnanny-cam"])) ∧
      (Cmds.spawnCount (Cmds.runDomainCommand (.boot ⟨p, .other⟩) env).actions = 0) ∧
      (Cmds.spawnCount
        (Cmds.runDomainCommand (.swupdate ⟨p, v, .swupdateRollback⟩) env).actions = 0) := by
  intro env p v
  refine ⟨⟨?_, ?_⟩, ⟨?_, ?_⟩, ⟨?_, ?_⟩, ?_, ?_, ?_, ?_⟩
  · cases hp0 : env.publishOk 0 with
    | false =>
      simp [Cmds.runDomainCommand, Cmds.handle_pi_boot_command, hp0,
        Cmds.startedPrecedesSpawn]
    | true =>
      cases hproc : env.proc with
      | error e =>
        simp [Cmds.runDomainCommand, Cmds.handle_pi_boot_command, hp0, hproc,
          Cmds.build_boot_status_payload, Cmds.startedPrecedesSpawn, Cmds.StatusEvent.phase]
      | ok output =>
        by_cases hs : output.success <;> by_cases hp1 : env.publishOk 1 <;>
          simp [Cmds.runDomainCommand, Cmds.handle_pi_boot_command, hp0, hp1, hproc, hs,
            Cmds.build_boot_status_payload, Cmds.startedPrecedesSpawn,
            Cmds.StatusEvent.phase]
  · intro h0
    constructor <;> simp [Cmds.runDomainCommand, Cmds.handle_pi_boot_command, h0]
  · cases hp0 : env.publishOk 0 with
    | false =>
      simp [Cmds.runDomainCommand, Cmds.handle_pi_cam_command, hp0,
        Cmds.startedPrecedesSpawn]
    | true =>
      cases hproc : env.proc with
      | error e =>
        simp [Cmds.runDomainCommand, Cmds.handle_pi_cam_command, hp0, hproc,
          Cmds.build_cam_status_payload, Cmds.startedPrecedesSpawn, Cmds.StatusEvent.phase]
      | ok output =>
        by_cases hs : output.success <;> by_cases hp1 : env.publishOk 1 <;>
          simp [Cmds.runDomainCommand, Cmds.handle_pi_cam_command, hp0, hp1, hproc, hs,
            Cmds.build_cam_status_payload, Cmds.startedPrecedesSpawn,
            Cmds.StatusEvent.phase]
  · intro h0
    constructor <;> simp [Cmds.runDomainCommand, Cmds.handle_pi_cam_command, h0]
  · cases hp0 : env.publishOk 0 with
    | false =>
      simp [Cmds.runDomainCommand, Cmds.handle_pi_swupdate_command, hp0,
        Cmds.startedPrecedesSpawn]
    | true =>
      cases hproc : env.proc with
      | error e =>
        simp [Cmds.runDomainCommand, Cmds.handle_pi_swupdate_command, hp0, hproc,
          Cmds.build_swupdate_status_payload, Cmds.startedPrecedesSpawn,
          Cmds.StatusEvent.phase]
      | ok output =>
        by_cases hs : output.success <;> by_cases hp1 : env.publishOk 1 <;>
          simp [Cmds.runDomainCommand, Cmds.handle_pi_swupdate_command, hp0, hp1, hproc, hs,
            Cmds.build_swupdate_status_payload, Cmds.startedPrecedesSpawn,
            Cmds.StatusEvent.phase]
  · intro h0
    constructor <;> simp [Cmds.runDomainCommand, Cmds.handle_pi_swupdate_command, h0]
  · cases hproc : env.proc <;>
      simp [Cmds.runDomainCommand, Cmds.handle_pi_boot_command, hproc]
  · cases hproc : env.proc with
    | error e => simp [Cmds.runDomainCommand, Cmds.handle_pi_cam_command, hproc]
    | ok output =>
      by_cases hs : output.success <;> by_cases hp0 : env.publishOk 0 <;>
        simp [Cmds.runDomainCommand, Cmds.handle_pi_cam_command, hproc, hs, hp0,
          Cmds.build_cam_status_payload]
  · simp [Cmds.runDomainCommand, Cmds.handle_pi_boot_command, Cmds.spawnCount]
  · simp [Cmds.runDomainCommand, Cmds.handle_pi_swupdate_command, Cmds.spawnCount]

/-- Witness for C7 amended: with every publish failing, CamStart aborts with
no action at all. -/
theorem C7_amended_witness :
    (Cmds.runDomainCommand (.cam ⟨1, .camStart⟩) failPubEnv).actions = [] :=
  ((C7_amended failPubEnv 1 "0.1.0").2.1.2 rfl).1

end PrintNanny
